import Mathlib

/-!
Verification of the Therapy Center backend (FastAPI + MongoDB, `src/main.py`,
`src/schemas.py`) against its natural-language specification.

The document store is modelled as in-memory lists of documents; Python dict
values reaching the dynamic parts of the code (`Dict[str, Any]` payloads,
user documents) are modelled by `PyVal` / `Item` association lists, with
Python truthiness made explicit.  Each endpoint handler is translated into a
pure Lean function over an explicit `Store`.
-/

namespace TherapyCenter

/-- A dynamically typed (JSON-like) Python value, as far as the code
inspects one: `None`, strings, ints, booleans. `isinstance(x, int)` is true
for Python booleans as well, which `isInstInt` reproduces. -/
inductive PyVal where
  | vnull
  | vstr (s : String)
  | vint (n : Int)
  | vbool (b : Bool)
  deriving Repr, DecidableEq

/-- Python truthiness of a value (`if x:`): `None`, `""`, `0`, `False` are
falsy. -/
def PyVal.truthy : PyVal → Bool
  | .vnull => false
  | .vstr s => ¬ s = ""
  | .vint n => ¬ n = 0
  | .vbool b => b

/-- Python `isinstance(x, int)`: true for ints and booleans. -/
def PyVal.isInstInt : PyVal → Bool
  | .vint _ => true
  | .vbool _ => true
  | _ => false

/-- Numeric value used in comparisons once `isinstance(x, int)` holds
(`True == 1`, `False == 0` in Python). -/
def PyVal.asInt : PyVal → Int
  | .vint n => n
  | .vbool b => if b then 1 else 0
  | _ => 0

/-- A Python dict with string keys, as an association list (dict keys are
unique; the operations below are written to respect that invariant). -/
abbrev Item : Type := List (String × PyVal)

/-- Python `d.get(k)`: the value at the first occurrence of the key, or
`None` when absent. -/
def pyGet (it : Item) (k : String) : PyVal :=
  match List.find? (fun kv => kv.1 == k) it with
  | some kv => kv.2
  | none => PyVal.vnull

/-- The list of keys of a dict. -/
def itemKeys (it : Item) : List String :=
  List.map (fun kv => kv.1) it

/-- Whether a key occurs in a dict. -/
def hasKey (it : Item) (k : String) : Bool :=
  List.any it (fun kv => kv.1 == k)

/-! ## Stored documents (`src/schemas.py`; one Mongo collection per type).
Every stored document carries the store-assigned identifier `oid`
(Mongo `_id`, rendered as a string at the boundary).  User documents keep
their fields dynamic (`Item`) because `list_users` manipulates them as
dicts (popping `password_hash`); the other collections are structural. -/

structure UserDoc where
  oid : String
  fields : Item
  deriving DecidableEq

structure ChildDoc where
  oid : String
  first_name : String
  last_name : String
  date_of_birth : Option String
  parent_ids : List String
  therapist_ids : List String
  diagnosis : Option String
  deriving Repr, DecidableEq

structure GoalDoc where
  oid : String
  child_id : String
  title : String
  description : Option String
  target_metric : Option String
  status : String
  deriving Repr, DecidableEq

structure SessionDoc where
  oid : String
  child_id : String
  therapist_id : String
  date : String
  duration_minutes : Nat
  notes : Option String
  goals_progress : List Item
  deriving DecidableEq

structure DonationDoc where
  oid : String
  donor_id : Option String
  child_id : Option String
  amount : ℚ
  message : Option String
  date : String
  deriving DecidableEq

/-- The document store: one list per collection, in insertion order
(Mongo `find` without sort returns natural order). -/
structure Store where
  users : List UserDoc
  children : List ChildDoc
  goals : List GoalDoc
  sessions : List SessionDoc
  donations : List DonationDoc
  deriving DecidableEq

/-! ## Weekly report aggregation (`weekly_report`, src/main.py:286-315). -/

structure ReportChild where
  child_id : String
  name : String
  sessions : Nat
  goals : Nat
  progress_updates : Nat
  deriving Repr, DecidableEq

structure Report where
  parent_id : String
  children : List ReportChild
  total_sessions : Nat
  total_progress_updates : Nat
  deriving Repr, DecidableEq

/-- `GET /reports/weekly?parent_id=`: children of the parent are fetched
(`{"parent_ids": parent_id}` matches array containment), then their
sessions and goals in two bulk `$in` reads, then a per-child linear
grouping. -/
def weekly_report (st : Store) (parent_id : String) : Report :=
  let children := st.children.filter (fun c => decide (parent_id ∈ c.parent_ids))
  let child_ids : List String := children.map (fun c => c.oid)
  let sessions := st.sessions.filter (fun s => decide (s.child_id ∈ child_ids))
  let goals := st.goals.filter (fun g => decide (g.child_id ∈ child_ids))
  let report_children := children.map (fun c =>
    let cid := c.oid
    let csessions := sessions.filter (fun s => s.child_id == cid)
    let cgoals := goals.filter (fun g => g.child_id == cid)
    let progress_items := (csessions.map (fun s => s.goals_progress.length)).sum
    { child_id := cid
      name := (c.first_name ++ " " ++ c.last_name).trim
      sessions := csessions.length
      goals := cgoals.length
      progress_updates := progress_items })
  { parent_id := parent_id
    children := report_children
    total_sessions := (report_children.map (fun x => x.sessions)).sum
    total_progress_updates := (report_children.map (fun x => x.progress_updates)).sum }

/-- Spec-side per-child summary (spec §4.1 step 4): counts taken over the
whole store, with `session_count = |sessions for child|`,
`goal_count = |goals for child|` and `progress_update_count` the sum of
`|goals_progress|` over the child's sessions. -/
def childSummarySpec (st : Store) (c : ChildDoc) : ReportChild :=
  { child_id := c.oid
    name := (c.first_name ++ " " ++ c.last_name).trim
    sessions := (st.sessions.filter (fun s => s.child_id == c.oid)).length
    goals := (st.goals.filter (fun g => g.child_id == c.oid)).length
    progress_updates :=
      ((st.sessions.filter (fun s => s.child_id == c.oid)).map
        (fun s => s.goals_progress.length)).sum }

/-! ## HTTP error conditions (FastAPI `HTTPException`). -/

structure HErr where
  status : Nat
  detail : String
  deriving Repr, DecidableEq

/-! ## List endpoints with optional equality filters.
Each handler builds a Mongo filter dict with `if param:` — Python
truthiness, so a `None` parameter and an empty-string parameter both leave
the filter out. -/

/-- Truthiness of an `Optional[str]` query parameter (`if role:`). -/
def truthyOptStr : Option String → Bool
  | none => false
  | some s => ¬ s = ""

/-- Python `d[k] = v`: replace the value at the key, keeping its position,
or append the binding when the key is new. -/
def pySet : Item → String → PyVal → Item
  | [], k, v => [(k, v)]
  | kv :: rest, k, v =>
      if kv.1 == k then (k, v) :: rest else kv :: pySet rest k v

/-- Python `d.pop(k, None)` on a dict (keys are unique in a dict, so
removing every binding of the key is the same operation). -/
def pyPop (it : Item) (k : String) : Item :=
  List.filter (fun kv => kv.1 != k) it

/-- The sanitization loop body of `list_users`:
`u["id"] = str(u.pop("_id")); u.pop("password_hash", None)`. -/
def sanitizeUser (u : UserDoc) : Item :=
  pyPop (pySet u.fields "id" (PyVal.vstr u.oid)) "password_hash"

/-- `GET /users?role=`: filter is `{"role": role} if role else {}`; every
returned doc has the id exposed as a string and the password hash
stripped. -/
def list_users (st : Store) (role : Option String) : List Item :=
  let users :=
    if truthyOptStr role then
      st.users.filter (fun u => pyGet u.fields "role" == PyVal.vstr (role.getD ""))
    else st.users
  users.map sanitizeUser

/-- `GET /children?parent_id=&therapist_id=`: `parent_ids`/`therapist_ids`
are arrays of scalar ids, and a Mongo scalar filter on an array field
means containment. -/
def list_children (st : Store) (parent_id therapist_id : Option String) :
    List ChildDoc :=
  st.children.filter (fun c =>
    (if truthyOptStr parent_id then decide ((parent_id.getD "") ∈ c.parent_ids)
     else true)
    && (if truthyOptStr therapist_id then
          decide ((therapist_id.getD "") ∈ c.therapist_ids)
        else true))

/-- `GET /sessions?child_id=&therapist_id=`. -/
def list_sessions (st : Store) (child_id therapist_id : Option String) :
    List SessionDoc :=
  st.sessions.filter (fun s =>
    (if truthyOptStr child_id then s.child_id == child_id.getD "" else true)
    && (if truthyOptStr therapist_id then s.therapist_id == therapist_id.getD ""
        else true))

/-- `GET /donations?child_id=&donor_id=`: the doc fields are optional, and
a Mongo equality filter on a string matches only docs holding that
string. -/
def list_donations (st : Store) (child_id donor_id : Option String) :
    List DonationDoc :=
  st.donations.filter (fun d =>
    (if truthyOptStr child_id then d.child_id == some (child_id.getD "")
     else true)
    && (if truthyOptStr donor_id then d.donor_id == some (donor_id.getD "")
        else true))

/-! ## Goals-progress batch append
(`add_goals_progress`, src/main.py:204-228). -/

/-- A character `bson.ObjectId` accepts in a 24-character hex string. -/
def isHexChar (c : Char) : Bool :=
  c.isDigit || (('a' ≤ c) && (c ≤ 'f')) || (('A' ≤ c) && (c ≤ 'F'))

/-- `to_obj_id`: `ObjectId(id_str)` succeeds exactly on 24-character hex
strings (else the handler raises 400 "Invalid id format"). -/
def isValidOid (s : String) : Bool :=
  s.length == 24 && s.data.all isHexChar

/-- The per-item checks of the loop in `add_goals_progress`:
`if not it.get("goal_id")` raises "goal_id required", then
`if rating is not None and (not isinstance(rating, int) or rating < 1 or
rating > 5)` raises "rating must be 1-5". -/
def gpItemCheck (it : Item) : Option HErr :=
  if ¬ (pyGet it "goal_id").truthy then
    some ⟨400, "goal_id required"⟩
  else if ¬ (pyGet it "rating" == PyVal.vnull)
          && (¬ (pyGet it "rating").isInstInt
              || (pyGet it "rating").asInt < 1
              || 5 < (pyGet it "rating").asInt) then
    some ⟨400, "rating must be 1-5"⟩
  else none

/-- Structural validity of one item: no check fires. -/
def gpItemValid (it : Item) : Bool :=
  (gpItemCheck it).isNone

/-- The normalized dict appended for a valid item: exactly the keys
`goal_id`, `rating`, `comment`, missing ones as `None`. -/
def normalizeGP (it : Item) : Item :=
  [("goal_id", pyGet it "goal_id"),
   ("rating", pyGet it "rating"),
   ("comment", pyGet it "comment")]

/-- The validation loop: the first structural failure raises, aborting
the whole batch; otherwise the normalized items are collected in
order. -/
def validateGPItems : List Item → Except HErr (List Item)
  | [] => Except.ok []
  | it :: rest =>
      match gpItemCheck it with
      | some e => Except.error e
      | none =>
          match validateGPItems rest with
          | Except.error e => Except.error e
          | Except.ok vs => Except.ok (normalizeGP it :: vs)

/-- Mongo `update_one({"_id": _id}, {"$push": {"goals_progress":
{"$each": items}}})`: atomically appends to the first matching document;
the returned `Nat` is `matched_count`. -/
def pushGoalsProgress (sid : String) (items : List Item) :
    List SessionDoc → List SessionDoc × Nat
  | [] => ([], 0)
  | s :: rest =>
      if s.oid == sid then
        ({ s with goals_progress := s.goals_progress ++ items } :: rest, 1)
      else
        let (r, n) := pushGoalsProgress sid items rest
        (s :: r, n)

structure GPResp where
  updated : Bool
  count : Nat
  deriving Repr, DecidableEq

/-- `PATCH /sessions/{session_id}/goals-progress`. -/
def add_goals_progress (st : Store) (session_id : String)
    (payload : List Item) : Except HErr (Store × GPResp) :=
  if ¬ isValidOid session_id then Except.error ⟨400, "Invalid id format"⟩
  else
    match validateGPItems payload with
    | Except.error e => Except.error e
    | Except.ok items =>
        let (sessions2, matched) := pushGoalsProgress session_id items st.sessions
        if matched == 0 then Except.error ⟨404, "Session not found"⟩
        else Except.ok ({ st with sessions := sessions2 }, ⟨true, items.length⟩)

/-- One PATCH request against the store: an `HTTPException` leaves the
store untouched (validation precedes the single write). -/
def runPatch (st : Store) (session_id : String) (payload : List Item) :
    Store × Except HErr GPResp :=
  match add_goals_progress st session_id payload with
  | Except.error e => (st, Except.error e)
  | Except.ok (st2, r) => (st2, Except.ok r)

/-- A sequence of PATCH requests, each seeing the store the previous one
left. -/
def applyBatches (sid : String) : Store → List (List Item) →
    Store × List (Except HErr GPResp)
  | st, [] => (st, [])
  | st, b :: bs =>
      let (st1, r) := runPatch st sid b
      let (st2, rs) := applyBatches sid st1 bs
      (st2, r :: rs)

/-- The goals_progress list of the first session with the given id. -/
def getSessionGP (st : Store) (sid : String) : Option (List Item) :=
  (st.sessions.find? (fun s => s.oid == sid)).map (fun s => s.goals_progress)

/-! ## Login (`auth_login`, src/main.py:106-122).  The bcrypt verifier is
an external primitive and enters the model as a function parameter. -/

structure LoginOut where
  id : String
  name : PyVal
  role : PyVal
  email : PyVal
  username : PyVal
  deriving Repr, DecidableEq

/-- `POST /auth/login`: `find_one({"username": username})`, then two
checks each answering 401 "Invalid credentials". -/
def auth_login (verify : String → PyVal → Bool) (st : Store)
    (username password : String) : Except HErr LoginOut :=
  match st.users.find? (fun u => pyGet u.fields "username" == PyVal.vstr username) with
  | none => Except.error ⟨401, "Invalid credentials"⟩
  | some user =>
      if ¬ (pyGet user.fields "password_hash").truthy then
        Except.error ⟨401, "Invalid credentials"⟩
      else if ¬ verify password (pyGet user.fields "password_hash") then
        Except.error ⟨401, "Invalid credentials"⟩
      else
        Except.ok
          ⟨user.oid, pyGet user.fields "name", pyGet user.fields "role",
           pyGet user.fields "email", pyGet user.fields "username"⟩

/-! ## Weekly report email (`email_weekly_report`, src/main.py:364-410).
SMTP is external; its outcome is a parameter of the model. -/

structure EmailEnv where
  host : Option String
  port : Option String
  user : Option String
  password : Option String
  emailFrom : Option String
  deriving Repr, DecidableEq

/-- Whether the mail transport is configured:
`not host or not user or not password` raises 501. -/
def emailConfigured (env : EmailEnv) : Bool :=
  truthyOptStr env.host && truthyOptStr env.user && truthyOptStr env.password

inductive SendOutcome where
  | success
  | failure (msg : String)
  deriving Repr, DecidableEq

def notConfiguredErr : HErr := ⟨501, "Email not configured on server"⟩

def sendFailedErr (msg : String) : HErr :=
  ⟨500, "Failed to send email: " ++ msg.take 200⟩

/-- Strip surrounding whitespace from a character list, as `int(str)`
does before parsing. -/
def pyStripWs (cs : List Char) : List Char :=
  ((cs.dropWhile Char.isWhitespace).reverse.dropWhile Char.isWhitespace).reverse

/-- After a digit: more digits, or a single underscore that must be
followed by a digit (Python's digit-group separator rule). -/
def digitsTail : List Char → Bool
  | [] => true
  | c :: rest =>
      if c.isDigit then digitsTail rest
      else if c == '_' then
        match rest with
        | [] => false
        | c2 :: rest2 => c2.isDigit && digitsTail rest2
      else false

/-- A nonempty ASCII digit sequence, with single underscores allowed
between digits. -/
def digitsOk : List Char → Bool
  | [] => false
  | c :: rest => c.isDigit && digitsTail rest

/-- Value of a validated digit sequence (underscores ignored). -/
def digitsVal (cs : List Char) : Int :=
  cs.foldl (fun acc c => if c == '_' then acc else acc * 10 + ((c.toNat : Int) - 48)) 0

/-- Python `int(s)` on a decimal string: optional surrounding
whitespace, optional sign, digits with single underscores between them;
anything else raises `ValueError`. -/
def pyIntParse (s : String) : Option Int :=
  match pyStripWs s.data with
  | '+' :: rest => if digitsOk rest then some (digitsVal rest) else none
  | '-' :: rest => if digitsOk rest then some (-(digitsVal rest)) else none
  | cs => if digitsOk cs then some (digitsVal cs) else none

/-- `POST /notifications/email/weekly-report`: aggregates the report,
then runs `port = int(os.getenv("EMAIL_PORT", "587"))` unconditionally
(src/main.py:370) — an unparsable value raises `ValueError`, which
FastAPI surfaces as a 500 Internal Server Error — then fails 501 before
touching the transport when host/user/password are absent; a
transport-level failure (the `smtplib` block) is a 500. -/
def email_weekly_report (env : EmailEnv) (smtp : SendOutcome) (st : Store)
    (parent_id : String) (to_email : String) : Except HErr Bool :=
  let _data := weekly_report st parent_id
  match pyIntParse (env.port.getD "587") with
  | none => Except.error ⟨500, "Internal Server Error"⟩
  | some _port =>
      if ¬ emailConfigured env then Except.error notConfiguredErr
      else
        match smtp with
        | SendOutcome.failure msg => Except.error (sendFailedErr msg)
        | SendOutcome.success => Except.ok true

/-! ## PDF renderer (`weekly_report_pdf`, src/main.py:319-356).
Coordinates are in points; `mm` is the reportlab unit (72 / 25.4 points)
and the page is A4 (height 297 mm).  Float arithmetic is modelled over
`ℚ`.  A page is the list of `(y, text)` lines drawn on it, in drawing
order. -/

def mmQ : ℚ := 360 / 127

def pageHeight : ℚ := 297 * mmQ

/-- The per-child line
`f"- {name} | Sessions: {n} | Goals: {n} | Updates: {n}"`. -/
def childLine (ch : ReportChild) : String :=
  "- " ++ ch.name ++ " | Sessions: " ++ toString ch.sessions
    ++ " | Goals: " ++ toString ch.goals
    ++ " | Updates: " ++ toString ch.progress_updates

/-- The header block drawn on the first page before the loop. -/
def headerLines (r : Report) : List (ℚ × String) :=
  [(pageHeight - 20 * mmQ, "Weekly Therapy Report"),
   (pageHeight - 27 * mmQ, "Parent ID: " ++ r.parent_id),
   (pageHeight - 32 * mmQ, "Total Sessions: " ++ toString r.total_sessions),
   (pageHeight - 37 * mmQ,
    "Progress Updates: " ++ toString r.total_progress_updates),
   (pageHeight - 50 * mmQ, "Children Summary")]

/-- The per-child loop: when the cursor is below `20 * mm`, `showPage()`
finalizes the current page and the cursor restarts at
`height - 20 * mm`; the line is then drawn and the cursor drops by
`6 * mm`. `pages` are the finalized pages, `cur` the page being drawn. -/
def drawChildren : List ReportChild → ℚ → List (List (ℚ × String)) →
    List (ℚ × String) → List (List (ℚ × String)) × List (ℚ × String)
  | [], _, pages, cur => (pages, cur)
  | ch :: rest, y, pages, cur =>
      if y < 20 * mmQ then
        drawChildren rest (pageHeight - 20 * mmQ - 6 * mmQ) (pages ++ [cur])
          [(pageHeight - 20 * mmQ, childLine ch)]
      else
        drawChildren rest (y - 6 * mmQ) pages (cur ++ [(y, childLine ch)])

/-- The rendered document as a list of pages: header block, then the
loop starting at `height - 50*mm - 6*mm`, then the trailing `showPage()`
finalizing the last page. -/
def weekly_report_pdf_pages (r : Report) : List (List (ℚ × String)) :=
  let res := drawChildren r.children (pageHeight - 50 * mmQ - 6 * mmQ) []
    (headerLines r)
  res.1 ++ [res.2]

/-- The text of a rendered document: all lines of all pages, in order. -/
def pagesText (pgs : List (List (ℚ × String))) : List String :=
  (pgs.map (fun pg => pg.map Prod.snd)).flatten

/-- A drawn line sits at or above the fixed bottom margin (no
clipping). -/
def lineInBounds (e : ℚ × String) : Bool :=
  decide (20 * mmQ ≤ e.1)

/-- A finalized page was broken because drawing one more line, `6 * mm`
below its last, would cross the bottom margin. -/
def brokeAtBottom (pg : List (ℚ × String)) : Bool :=
  match pg.getLast? with
  | some e => decide (e.1 - 6 * mmQ < 20 * mmQ)
  | none => false

/-- `GET /reports/weekly.pdf?parent_id=` reuses the aggregation. -/
def weekly_report_pdf (st : Store) (parent_id : String) :
    List (List (ℚ × String)) :=
  weekly_report_pdf_pages (weekly_report st parent_id)

/-! ## Helper predicates and concrete fixtures used in statements. -/

/-- Whether a dynamic value is a string. -/
def isStrVal : PyVal → Bool
  | PyVal.vstr _ => true
  | _ => false

/-- Whether a response is a client validation error (status 400). -/
def isClientError {α : Type} : Except HErr α → Bool
  | Except.error e => e.status == 400
  | Except.ok _ => false

/-- A concrete session id (a valid 24-char hex ObjectId string). -/
def exOid : String := "0123456789abcdef01234567"

/-- A concrete stored session with one pre-existing goals_progress
entry. -/
def exSession : SessionDoc :=
  ⟨exOid, "c1", "t1", "2026-01-05", 45, none, [[("goal_id", PyVal.vstr "g0")]]⟩

/-- A concrete store holding `exSession`. -/
def exStore : Store := ⟨[], [], [], [exSession], []⟩

/-- `exSession`'s initial goals_progress list. -/
def exGP0 : List Item := [[("goal_id", PyVal.vstr "g0")]]

/-- Two concrete valid batches, of sizes 1 and 2. -/
def exBatches : List (List Item) :=
  [[[("goal_id", PyVal.vstr "g1"), ("rating", PyVal.vint 3)]],
   [[("goal_id", PyVal.vstr "g2")],
    [("goal_id", PyVal.vstr "g3"), ("comment", PyVal.vstr "ok")]]]

/-- A concrete user store for the login theorems: one user with username
"alice" and a bcrypt hash on file. -/
def exUserStore : Store :=
  ⟨[⟨"u1", [("username", PyVal.vstr "alice"),
            ("password_hash", PyVal.vstr "hh"),
            ("name", PyVal.vstr "Alice"),
            ("role", PyVal.vstr "parent"),
            ("email", PyVal.vstr "a@x.com")]⟩], [], [], [], []⟩

/-- A mail environment with nothing configured. -/
def exEnvNone : EmailEnv := ⟨none, none, none, none, none⟩

/-! # Theorems -/

/-- Filtering by a finer predicate after a coarser one is filtering by the
finer one alone. -/
theorem filter_filter_of_imp {α : Type} (p q : α → Bool)
    (h : ∀ a, q a = true → p a = true) (l : List α) :
    (l.filter p).filter q = l.filter q := by
  induction l with
  | nil => rfl
  | cons a t ih =>
      by_cases hq : q a = true
      · have hp := h a hq
        simp [List.filter, hp, hq, ih]
      · have hq' : q a = false := by simpa using hq
        cases hp : p a <;> simp [List.filter, hp, hq', ih]

/-- C1. `weekly_report` returns one summary per child whose `parent_ids`
contains the parent, in store order; each summary counts that child's
Session documents, Goal documents, and the total `goals_progress` entries
of its sessions, and the report totals are the sums of the per-child
counts. -/
theorem weekly_report_matches_spec (st : Store) (p : String) :
    (weekly_report st p).children =
      List.map (childSummarySpec st)
        (st.children.filter (fun c => decide (p ∈ c.parent_ids)))
    ∧ (weekly_report st p).total_sessions =
      List.sum (List.map (fun x => x.sessions) (weekly_report st p).children)
    ∧ (weekly_report st p).total_progress_updates =
      List.sum (List.map (fun x => x.progress_updates)
        (weekly_report st p).children) := by
  refine ⟨?_, rfl, rfl⟩
  simp only [weekly_report]
  apply List.map_congr_left
  intro c hc
  have hoid : c.oid ∈
      (st.children.filter (fun c => decide (p ∈ c.parent_ids))).map
        (fun c => c.oid) :=
    List.mem_map_of_mem _ hc
  have hsess := filter_filter_of_imp
    (fun s => decide (s.child_id ∈
      (st.children.filter (fun c => decide (p ∈ c.parent_ids))).map
        (fun c => c.oid)))
    (fun s => s.child_id == c.oid)
    (by
      intro s hs
      have : s.child_id = c.oid := by simpa using hs
      simpa [this] using hoid)
    st.sessions
  have hgoal := filter_filter_of_imp
    (fun g => decide (g.child_id ∈
      (st.children.filter (fun c => decide (p ∈ c.parent_ids))).map
        (fun c => c.oid)))
    (fun g => g.child_id == c.oid)
    (by
      intro g hg
      have : g.child_id = c.oid := by simpa using hg
      simpa [this] using hoid)
    st.goals
  simp only [childSummarySpec, hsess, hgoal]

/-- C7. A parent identifier contained in no child's `parent_ids` yields a
successful report with no children and zero totals. -/
theorem weekly_report_no_children (st : Store) (p : String)
    (h : ∀ c ∈ st.children, p ∉ c.parent_ids) :
    weekly_report st p =
      { parent_id := p, children := [], total_sessions := 0,
        total_progress_updates := 0 } := by
  have hf : st.children.filter (fun c => decide (p ∈ c.parent_ids)) = [] := by
    apply List.filter_eq_nil_iff.mpr
    intro c hc
    simpa using h c hc
  simp [weekly_report, hf]

/-- Witness for C7 on a concrete store. -/
theorem weekly_report_no_children_witness :
    weekly_report
      ⟨[], [⟨"c1", "Ann", "Lee", none, ["p2"], [], none⟩], [], [], []⟩ "p1" =
      { parent_id := "p1", children := [], total_sessions := 0,
        total_progress_updates := 0 } :=
  weekly_report_no_children _ "p1" (by decide)

/-- C9. An empty-string value for any optional filter parameter of the
list endpoints behaves exactly like an absent parameter: Python
truthiness (`if role:`) treats `""` and `None` alike, so the filter is
left out either way. -/
theorem empty_string_filter_is_absent (st : Store) (q : Option String) :
    list_users st (some "") = list_users st none
    ∧ list_children st (some "") q = list_children st none q
    ∧ list_children st q (some "") = list_children st q none
    ∧ list_sessions st (some "") q = list_sessions st none q
    ∧ list_sessions st q (some "") = list_sessions st q none
    ∧ list_donations st (some "") q = list_donations st none q
    ∧ list_donations st q (some "") = list_donations st q none :=
  ⟨rfl, rfl, rfl, rfl, rfl, rfl, rfl⟩

/-- Reading a dict built by cons. -/
theorem pyGet_cons (kv : String × PyVal) (rest : Item) (k : String) :
    pyGet (kv :: rest) k = if kv.1 == k then kv.2 else pyGet rest k := by
  cases h : kv.1 == k <;> simp [pyGet, List.find?, h]

/-- Popping a key from a dict built by cons. -/
theorem pyPop_cons (kv : String × PyVal) (rest : Item) (k : String) :
    pyPop (kv :: rest) k =
      if kv.1 == k then pyPop rest k else kv :: pyPop rest k := by
  cases h : kv.1 == k <;> simp [pyPop, List.filter_cons, bne, h]

/-- Popping a key removes every trace of it. -/
theorem hasKey_pyPop (it : Item) (k : String) :
    hasKey (pyPop it k) k = false := by
  induction it with
  | nil => rfl
  | cons kv rest ih =>
      rw [pyPop_cons]
      by_cases h : kv.1 = k
      · simpa [h] using ih
      · simpa [h, hasKey] using ih

/-- Reading back the key just assigned. -/
theorem pyGet_pySet_self (it : Item) (k : String) (v : PyVal) :
    pyGet (pySet it k v) k = v := by
  induction it with
  | nil => simp [pySet, pyGet]
  | cons kv rest ih =>
      by_cases h : kv.1 = k
      · simp [pySet, pyGet, h]
      · simpa [pySet, pyGet_cons, h] using ih

/-- Popping one key does not change another key's value. -/
theorem pyGet_pyPop_ne (it : Item) (k k2 : String) (h : ¬ k = k2) :
    pyGet (pyPop it k2) k = pyGet it k := by
  induction it with
  | nil => rfl
  | cons kv rest ih =>
      rw [pyPop_cons, pyGet_cons]
      by_cases h1 : kv.1 = k2
      · have c1 : (kv.1 == k2) = true := by simp [h1]
        have c2 : (kv.1 == k) = false := by
          simp only [beq_eq_false_iff_ne, ne_eq]
          intro hc
          exact h (by rw [← hc, h1])
        rw [c1, c2, if_pos rfl, if_neg (by simp)]
        exact ih
      · have c1 : (kv.1 == k2) = false := by simp [h1]
        rw [c1, if_neg (by simp), pyGet_cons]
        by_cases h2 : kv.1 = k
        · have c2 : (kv.1 == k) = true := by simp [h2]
          rw [c2, if_pos rfl, if_pos rfl]
        · have c2 : (kv.1 == k) = false := by simp [h2]
          rw [c2, if_neg (by simp), if_neg (by simp)]
          exact ih

/-- C8. Every record returned by `GET /users` has the password hash
stripped and the store identifier exposed as a string-valued `id` field,
with or without a role filter; the sanitizer maps each stored doc's `oid`
to `id`. -/
theorem list_users_no_password_hash (st : Store) (role : Option String)
    (u0 : UserDoc) :
    List.all (list_users st role)
      (fun u => (!(hasKey u "password_hash")) && isStrVal (pyGet u "id")) = true
    ∧ pyGet (sanitizeUser u0) "id" = PyVal.vstr u0.oid
    ∧ hasKey (sanitizeUser u0) "password_hash" = false := by
  have hid : ∀ u : UserDoc, pyGet (sanitizeUser u) "id" = PyVal.vstr u.oid := by
    intro u
    unfold sanitizeUser
    rw [pyGet_pyPop_ne _ _ _ (by decide)]
    exact pyGet_pySet_self _ _ _
  refine ⟨?_, hid u0, hasKey_pyPop _ _⟩
  rw [List.all_eq_true]
  intro u hu
  simp only [list_users] at hu
  rcases List.mem_map.mp hu with ⟨w, _, hw⟩
  subst hw
  rw [Bool.and_eq_true]
  constructor
  · rw [Bool.not_eq_true']
    exact hasKey_pyPop _ _
  · rw [hid w]
    rfl

/-- Every failing per-item check is a 400. -/
theorem gpItemCheck_status (it : Item) (e : HErr)
    (h : gpItemCheck it = some e) : e.status = 400 := by
  unfold gpItemCheck at h
  split at h
  · cases h
    rfl
  · split at h
    · cases h
      rfl
    · cases h

/-- If any item of the batch fails its structural check, the whole
validation loop returns a 400 error. -/
theorem validateGPItems_error_of_invalid (payload : List Item)
    (h : ∃ it ∈ payload, gpItemValid it = false) :
    ∃ e, validateGPItems payload = Except.error e ∧ e.status = 400 := by
  induction payload with
  | nil =>
      rcases h with ⟨it, hmem, _⟩
      cases hmem
  | cons it0 rest ih =>
      cases hc : gpItemCheck it0 with
      | some e =>
          exact ⟨e, by simp [validateGPItems, hc], gpItemCheck_status _ _ hc⟩
      | none =>
          have h0 : gpItemValid it0 = true := by simp [gpItemValid, hc]
          rcases h with ⟨it, hmem, hbad⟩
          rcases List.mem_cons.mp hmem with rfl | hmem2
          · rw [h0] at hbad
            cases hbad
          · rcases ih ⟨it, hmem2, hbad⟩ with ⟨e, he, hs⟩
            exact ⟨e, by simp [validateGPItems, hc, he], hs⟩

/-- C2. A goals-progress batch holding any structurally invalid item
(falsy `goal_id`, or a `rating` that is present but not an int in
`[1,5]`) is rejected whole with a validation error, and the store — in
particular the session's stored `goals_progress` list — is unchanged. -/
theorem add_goals_progress_rejects_whole_batch (st : Store) (sid : String)
    (payload : List Item) (h : ∃ it ∈ payload, gpItemValid it = false) :
    (runPatch st sid payload).1 = st
    ∧ isClientError (runPatch st sid payload).2 = true := by
  by_cases hv : isValidOid sid = true
  · rcases validateGPItems_error_of_invalid payload h with ⟨e, he, hs⟩
    constructor
    · simp [runPatch, add_goals_progress, hv, he]
    · simp [runPatch, add_goals_progress, hv, he, isClientError, hs]
  · constructor <;> simp [runPatch, add_goals_progress, hv, isClientError]

/-- Witness for C2: a batch with rating 7 is rejected and the store kept
as it was. -/
theorem add_goals_progress_rejects_whole_batch_witness :
    (runPatch exStore exOid
        [[("goal_id", PyVal.vstr "g1"), ("rating", PyVal.vint 7)]]).1 = exStore
    ∧ isClientError
        (runPatch exStore exOid
          [[("goal_id", PyVal.vstr "g1"), ("rating", PyVal.vint 7)]]).2
        = true :=
  add_goals_progress_rejects_whole_batch exStore exOid
    [[("goal_id", PyVal.vstr "g1"), ("rating", PyVal.vint 7)]]
    (by decide)

/-- On an all-valid batch the validation loop returns the normalized
items, in order. -/
theorem validateGPItems_ok (payload : List Item)
    (h : ∀ it ∈ payload, gpItemValid it = true) :
    validateGPItems payload = Except.ok (payload.map normalizeGP) := by
  induction payload with
  | nil => rfl
  | cons it0 rest ih =>
      have h0 : gpItemCheck it0 = none := by
        have := h it0 (List.mem_cons_self it0 rest)
        simpa [gpItemValid, Option.isNone_iff_eq_none] using this
      have hrest := ih (fun it hit => h it (List.mem_cons_of_mem _ hit))
      simp [validateGPItems, h0, hrest]

/-- `update_one` with `$push`: when a session with the id is present, the
first one gets the items appended (`matched_count = 1`) and stays the
first match; when none is present the list is returned unchanged with
`matched_count = 0`. -/
theorem pushGoalsProgress_spec (sid : String) (items : List Item)
    (l : List SessionDoc) :
    (l.find? (fun s => s.oid == sid) = none →
      pushGoalsProgress sid items l = (l, 0))
    ∧ (∀ s0, l.find? (fun s => s.oid == sid) = some s0 →
        (pushGoalsProgress sid items l).2 = 1
        ∧ (pushGoalsProgress sid items l).1.find? (fun s => s.oid == sid)
          = some { s0 with goals_progress := s0.goals_progress ++ items }) := by
  induction l with
  | nil => exact ⟨fun _ => rfl, fun s0 h => by cases h⟩
  | cons s rest ih =>
      cases hc : s.oid == sid with
      | true =>
          constructor
          · intro hn
            rw [List.find?_cons, hc] at hn
            cases hn
          · intro s0 hf
            rw [List.find?_cons, hc] at hf
            cases hf
            constructor
            · simp [pushGoalsProgress, hc]
            · simp [pushGoalsProgress, hc, List.find?_cons]
      | false =>
          constructor
          · intro hn
            rw [List.find?_cons, hc] at hn
            have := ih.1 hn
            simp [pushGoalsProgress, hc, this]
          · intro s0 hf
            rw [List.find?_cons, hc] at hf
            have := ih.2 s0 hf
            constructor
            · simp [pushGoalsProgress, hc, this.1]
            · simp [pushGoalsProgress, hc, List.find?_cons, this.2]

/-- One successful PATCH: valid id, all items valid, session present —
the response is `{updated: true, count: |batch|}` and the session's list
becomes the old list followed by the normalized batch. -/
theorem runPatch_ok (st : Store) (sid : String) (payload : List Item)
    (s0 : SessionDoc) (hv : isValidOid sid = true)
    (hf : st.sessions.find? (fun s => s.oid == sid) = some s0)
    (hb : ∀ it ∈ payload, gpItemValid it = true) :
    (runPatch st sid payload).2 = Except.ok ⟨true, payload.length⟩
    ∧ getSessionGP (runPatch st sid payload).1 sid
      = some (s0.goals_progress ++ payload.map normalizeGP) := by
  have hval := validateGPItems_ok payload hb
  have hpush := (pushGoalsProgress_spec sid (payload.map normalizeGP)
    st.sessions).2 s0 hf
  constructor
  · simp [runPatch, add_goals_progress, hv, hval, hpush.1]
  · simp [runPatch, add_goals_progress, hv, hval, hpush.1, getSessionGP,
      hpush.2]

/-- Unfolding one PATCH from a sequence. -/
theorem applyBatches_cons (sid : String) (st : Store) (b : List Item)
    (bs : List (List Item)) :
    applyBatches sid st (b :: bs)
      = ((applyBatches sid (runPatch st sid b).1 bs).1,
         (runPatch st sid b).2
           :: (applyBatches sid (runPatch st sid b).1 bs).2) := rfl

/-- C4. Appending N valid batches of sizes k1..kN to an existing session
leaves the stored list equal to the original followed by the normalized
batches: its length grows by k1+...+kN, the original entries stay as the
unchanged prefix, and each request answers `{updated: true, count: ki}`. -/
theorem goals_progress_append_monotonic (sid : String)
    (batches : List (List Item)) (st : Store) (gp0 : List Item)
    (hv : isValidOid sid = true)
    (hs : getSessionGP st sid = some gp0)
    (hb : ∀ b ∈ batches, ∀ it ∈ b, gpItemValid it = true) :
    getSessionGP (applyBatches sid st batches).1 sid
      = some (gp0 ++ batches.flatten.map normalizeGP)
    ∧ (applyBatches sid st batches).2
      = batches.map (fun b => Except.ok (⟨true, b.length⟩ : GPResp))
    ∧ (getSessionGP (applyBatches sid st batches).1 sid).map List.length
      = some (gp0.length + (batches.map List.length).sum)
    ∧ (getSessionGP (applyBatches sid st batches).1 sid).map
        (fun l => List.take gp0.length l) = some gp0 := by
  have main : ∀ (bs : List (List Item)) (st : Store) (gp0 : List Item),
      getSessionGP st sid = some gp0 →
      (∀ b ∈ bs, ∀ it ∈ b, gpItemValid it = true) →
      getSessionGP (applyBatches sid st bs).1 sid
        = some (gp0 ++ bs.flatten.map normalizeGP)
      ∧ (applyBatches sid st bs).2
        = bs.map (fun b => Except.ok (⟨true, b.length⟩ : GPResp)) := by
    intro bs
    induction bs with
    | nil =>
        intro st gp0 hs0 _
        constructor
        · simpa [applyBatches] using hs0
        · rfl
    | cons b bs ih =>
        intro st gp0 hs0 hb0
        rw [getSessionGP] at hs0
        rcases Option.map_eq_some'.mp hs0 with ⟨s0, hf0, hgp⟩
        have hrp := runPatch_ok st sid b s0 hv hf0
          (hb0 b (List.mem_cons_self _ _))
        have hs1 : getSessionGP (runPatch st sid b).1 sid
            = some (gp0 ++ b.map normalizeGP) := by
          rw [hrp.2, hgp]
        have ihr := ih (runPatch st sid b).1 (gp0 ++ b.map normalizeGP) hs1
          (fun b2 hb2 it hit => hb0 b2 (List.mem_cons_of_mem _ hb2) it hit)
        rw [applyBatches_cons]
        constructor
        · rw [ihr.1]
          simp [List.map_append, List.append_assoc]
        · rw [List.map_cons, ← ihr.2, ← hrp.1]
  have M := main batches st gp0 hs hb
  refine ⟨M.1, M.2, ?_, ?_⟩
  · rw [M.1]
    simp [List.length_append, List.length_map, List.length_flatten,
      Function.comp_def]
  · rw [M.1]
    simp [List.take_left]

/-- Witness for C4: two valid batches of sizes 1 and 2 appended to a
session that already holds one entry. -/
theorem goals_progress_append_monotonic_witness :
    getSessionGP (applyBatches exOid exStore exBatches).1 exOid
      = some (exGP0 ++ exBatches.flatten.map normalizeGP)
    ∧ (applyBatches exOid exStore exBatches).2
      = exBatches.map (fun b => Except.ok (⟨true, b.length⟩ : GPResp))
    ∧ (getSessionGP (applyBatches exOid exStore exBatches).1 exOid).map
        List.length
      = some (exGP0.length + (exBatches.map List.length).sum)
    ∧ (getSessionGP (applyBatches exOid exStore exBatches).1 exOid).map
        (fun l => List.take exGP0.length l) = some exGP0 :=
  goals_progress_append_monotonic exOid exBatches exStore exGP0
    (by decide) (by decide) (by decide)

/-- A key that is absent reads as `None`. -/
theorem pyGet_eq_vnull_of_not_hasKey (it : Item) (k : String)
    (h : hasKey it k = false) : pyGet it k = PyVal.vnull := by
  unfold pyGet
  have hn : it.find? (fun kv => kv.1 == k) = none := by
    rw [List.find?_eq_none]
    intro x hx
    have h2 : it.any (fun kv => kv.1 == k) = false := h
    exact List.any_eq_false.mp h2 x hx
  rw [hn]

/-- C10. Every item stored by a successful goals-progress append has
exactly the keys `goal_id`, `rating`, `comment` — extra submitted fields
are dropped — and an absent `rating` or `comment` is stored as `None`;
the stored suffix is exactly the normalized batch. -/
theorem stored_gp_items_shape (st : Store) (sid : String)
    (payload : List Item) (s0 : SessionDoc) (hv : isValidOid sid = true)
    (hf : st.sessions.find? (fun s => s.oid == sid) = some s0)
    (hb : ∀ it ∈ payload, gpItemValid it = true) :
    getSessionGP (runPatch st sid payload).1 sid
      = some (s0.goals_progress ++ payload.map normalizeGP)
    ∧ payload.all (fun it =>
        (itemKeys (normalizeGP it) == ["goal_id", "rating", "comment"])
        && (hasKey it "rating"
            || (pyGet (normalizeGP it) "rating" == PyVal.vnull))
        && (hasKey it "comment"
            || (pyGet (normalizeGP it) "comment" == PyVal.vnull))) = true := by
  refine ⟨(runPatch_ok st sid payload s0 hv hf hb).2, ?_⟩
  rw [List.all_eq_true]
  intro it _
  have hr : pyGet (normalizeGP it) "rating" = pyGet it "rating" := by
    simp [normalizeGP, pyGet_cons]
  have hc : pyGet (normalizeGP it) "comment" = pyGet it "comment" := by
    simp [normalizeGP, pyGet_cons]
  have c2 : (hasKey it "rating"
      || (pyGet (normalizeGP it) "rating" == PyVal.vnull)) = true := by
    cases hky : hasKey it "rating"
    · rw [hr, pyGet_eq_vnull_of_not_hasKey it _ hky]
      rfl
    · rfl
  have c3 : (hasKey it "comment"
      || (pyGet (normalizeGP it) "comment" == PyVal.vnull)) = true := by
    cases hky : hasKey it "comment"
    · rw [hc, pyGet_eq_vnull_of_not_hasKey it _ hky]
      rfl
    · rfl
  rw [c2, c3]
  rfl

/-- Witness for C10: valid batch with an extra field and a missing
rating/comment. -/
theorem stored_gp_items_shape_witness :
    getSessionGP
        (runPatch exStore exOid
          [[("goal_id", PyVal.vstr "g1"), ("extra", PyVal.vint 9)]]).1 exOid
      = some (exSession.goals_progress
          ++ [[("goal_id", PyVal.vstr "g1"), ("extra", PyVal.vint 9)]].map
              normalizeGP)
    ∧ ([[("goal_id", PyVal.vstr "g1"), ("extra", PyVal.vint 9)]] :
        List Item).all (fun it =>
        (itemKeys (normalizeGP it) == ["goal_id", "rating", "comment"])
        && (hasKey it "rating"
            || (pyGet (normalizeGP it) "rating" == PyVal.vnull))
        && (hasKey it "comment"
            || (pyGet (normalizeGP it) "comment" == PyVal.vnull))) = true :=
  stored_gp_items_shape exStore exOid
    [[("goal_id", PyVal.vstr "g1"), ("extra", PyVal.vint 9)]] exSession
    (by decide) (by decide) (by decide)

/-- C6. A login with an existing username but a failing password check
and a login with a nonexistent username produce the same
authentication-failure response: status 401, detail "Invalid
credentials". -/
theorem login_failure_uniform (verify : String → PyVal → Bool) (st : Store)
    (u1 p1 u2 p2 : String) (user : UserDoc)
    (hf1 : st.users.find?
      (fun u => pyGet u.fields "username" == PyVal.vstr u1) = some user)
    (hhash : (pyGet user.fields "password_hash").truthy = true)
    (hverify : verify p1 (pyGet user.fields "password_hash") = false)
    (hf2 : st.users.find?
      (fun u => pyGet u.fields "username" == PyVal.vstr u2) = none) :
    auth_login verify st u1 p1 = Except.error ⟨401, "Invalid credentials"⟩
    ∧ auth_login verify st u2 p2 = Except.error ⟨401, "Invalid credentials"⟩
    ∧ auth_login verify st u1 p1 = auth_login verify st u2 p2 := by
  have h1 : auth_login verify st u1 p1
      = Except.error ⟨401, "Invalid credentials"⟩ := by
    simp [auth_login, hf1, hhash, hverify]
  have h2 : auth_login verify st u2 p2
      = Except.error ⟨401, "Invalid credentials"⟩ := by
    simp [auth_login, hf2]
  exact ⟨h1, h2, h1.trans h2.symm⟩

/-- Witness for C6 with a concrete store and an always-rejecting
verifier. -/
theorem login_failure_uniform_witness :
    auth_login (fun _ _ => false) exUserStore "alice" "wrong"
      = Except.error ⟨401, "Invalid credentials"⟩
    ∧ auth_login (fun _ _ => false) exUserStore "bob" "pw"
      = Except.error ⟨401, "Invalid credentials"⟩
    ∧ auth_login (fun _ _ => false) exUserStore "alice" "wrong"
      = auth_login (fun _ _ => false) exUserStore "bob" "pw" :=
  login_failure_uniform (fun _ _ => false) exUserStore "alice" "wrong"
    "bob" "pw" ⟨"u1", [("username", PyVal.vstr "alice"),
      ("password_hash", PyVal.vstr "hh"),
      ("name", PyVal.vstr "Alice"),
      ("role", PyVal.vstr "parent"),
      ("email", PyVal.vstr "a@x.com")]⟩
    (by decide) (by decide) rfl (by decide)

/-- C5 counterexample. With `EMAIL_PORT` set to a non-numeric string and
host/user/password absent, the handler does not fail with the 501
"not configured" condition: `int(os.getenv("EMAIL_PORT", "587"))` runs
first (src/main.py:370) and its `ValueError` surfaces as a 500. -/
theorem email_weekly_report_port_counterexample :
    emailConfigured ⟨none, some "abc", none, none, none⟩ = false
    ∧ email_weekly_report ⟨none, some "abc", none, none, none⟩
        SendOutcome.success exStore "p1" "a@b.c"
      = Except.error ⟨500, "Internal Server Error"⟩
    ∧ email_weekly_report ⟨none, some "abc", none, none, none⟩
        SendOutcome.success exStore "p1" "a@b.c"
      ≠ Except.error notConfiguredErr := by
  refine ⟨rfl, rfl, ?_⟩
  have h1 : email_weekly_report ⟨none, some "abc", none, none, none⟩
      SendOutcome.success exStore "p1" "a@b.c"
      = Except.error ⟨500, "Internal Server Error"⟩ := rfl
  rw [h1]
  intro hcon
  simp [notConfiguredErr] at hcon

/-- C5 (amended). Provided the `EMAIL_PORT` value (default "587") parses
as an int — otherwise the unconditional parse at src/main.py:370 raises
first — an absent transport configuration makes the weekly-report email
fail immediately with the 501 "not configured" condition, whatever the
transport would have done, and this condition is distinct (different
status and detail) from the 500 produced by an attempted send that
fails. -/
theorem email_weekly_report_conditions (env : EmailEnv)
    (smtp : SendOutcome) (st : Store) (pid toAddr m : String) (pt : Int)
    (hport : pyIntParse (env.port.getD "587") = some pt) :
    (emailConfigured env = false →
      email_weekly_report env smtp st pid toAddr
        = Except.error notConfiguredErr)
    ∧ (emailConfigured env = true → smtp = SendOutcome.failure m →
      email_weekly_report env smtp st pid toAddr
        = Except.error (sendFailedErr m))
    ∧ notConfiguredErr ≠ sendFailedErr m
    ∧ notConfiguredErr.status ≠ (sendFailedErr m).status := by
  refine ⟨?_, ?_, ?_, ?_⟩
  · intro h
    simp [email_weekly_report, hport, h]
  · intro h hsm
    subst hsm
    simp [email_weekly_report, hport, h]
  · simp [notConfiguredErr, sendFailedErr]
  · simp [notConfiguredErr, sendFailedErr]

/-- Witness for C5: unconfigured environment (default port string) vs a
failing configured send. -/
theorem email_weekly_report_conditions_witness :
    email_weekly_report exEnvNone SendOutcome.success exStore "p1" "a@b.c"
      = Except.error notConfiguredErr
    ∧ email_weekly_report ⟨some "smtp.x", some "587", some "u", some "pw",
        none⟩ (SendOutcome.failure "boom") exStore "p1" "a@b.c"
      = Except.error (sendFailedErr "boom") :=
  ⟨(email_weekly_report_conditions exEnvNone SendOutcome.success exStore
      "p1" "a@b.c" "boom" 587 rfl).1 (by decide),
   (email_weekly_report_conditions ⟨some "smtp.x", some "587", some "u",
      some "pw", none⟩ (SendOutcome.failure "boom") exStore
      "p1" "a@b.c" "boom" 587 rfl).2.1 (by decide) rfl⟩

/-- Finalizing a page appends its text. -/
theorem pagesText_concat (P : List (List (ℚ × String)))
    (C : List (ℚ × String)) :
    pagesText (P ++ [C]) = pagesText P ++ C.map Prod.snd := by
  simp [pagesText]

/-- The loop draws exactly one line per child, in order, never losing or
duplicating text across page breaks. -/
theorem drawChildren_text (chs : List ReportChild) :
    ∀ (y : ℚ) (pages : List (List (ℚ × String)))
      (cur : List (ℚ × String)),
      pagesText (drawChildren chs y pages cur).1
        ++ ((drawChildren chs y pages cur).2).map Prod.snd
      = pagesText pages ++ cur.map Prod.snd ++ chs.map childLine := by
  induction chs with
  | nil =>
      intro y pages cur
      simp [drawChildren]
  | cons ch rest ih =>
      intro y pages cur
      rw [drawChildren]
      by_cases hy : y < 20 * mmQ
      · rw [if_pos hy, ih]
        rw [pagesText_concat]
        simp [List.append_assoc]
      · rw [if_neg hy, ih]
        simp [List.map_append, List.append_assoc]

/-- The loop never draws a line below the bottom margin: on a low cursor
the page is broken first and the line lands at `height - 20*mm`. -/
theorem drawChildren_bounds (chs : List ReportChild) :
    ∀ (y : ℚ) (pages : List (List (ℚ × String)))
      (cur : List (ℚ × String)),
      pages.all (fun pg => pg.all lineInBounds) = true →
      cur.all lineInBounds = true →
      (drawChildren chs y pages cur).1.all
        (fun pg => pg.all lineInBounds) = true
      ∧ (drawChildren chs y pages cur).2.all lineInBounds = true := by
  induction chs with
  | nil =>
      intro y pages cur hp hc
      exact ⟨hp, hc⟩
  | cons ch rest ih =>
      intro y pages cur hp hc
      rw [drawChildren]
      by_cases hy : y < 20 * mmQ
      · rw [if_pos hy]
        apply ih
        · simp [List.all_append, hp, hc]
        · simp only [List.all_cons, List.all_nil, Bool.and_true,
            lineInBounds, decide_eq_true_eq]
          norm_num [pageHeight, mmQ]
      · rw [if_neg hy]
        apply ih
        · exact hp
        · simp only [List.all_append, hc, List.all_cons, List.all_nil,
            Bool.and_true, Bool.true_and, lineInBounds, decide_eq_true_eq]
          exact not_lt.mp hy

/-- A page is finalized only when the cursor, `6*mm` below its last
drawn line, has crossed the bottom margin. -/
theorem drawChildren_breaks (chs : List ReportChild) :
    ∀ (y : ℚ) (pages : List (List (ℚ × String)))
      (cur : List (ℚ × String)),
      pages.all brokeAtBottom = true →
      cur.getLast?.map Prod.fst = some (y + 6 * mmQ) →
      (drawChildren chs y pages cur).1.all brokeAtBottom = true := by
  induction chs with
  | nil =>
      intro y pages cur hp _
      exact hp
  | cons ch rest ih =>
      intro y pages cur hp hc
      rw [drawChildren]
      by_cases hy : y < 20 * mmQ
      · rw [if_pos hy]
        rcases Option.map_eq_some'.mp hc with ⟨e, he, hfst⟩
        have hcur : brokeAtBottom cur = true := by
          simp only [brokeAtBottom, he, decide_eq_true_eq, hfst]
          linarith
        apply ih
        · simp [List.all_append, hp, hcur]
        · simp only [List.getLast?_singleton, Option.map_some']
          congr 1
          ring
      · rw [if_neg hy]
        apply ih
        · exact hp
        · rw [List.getLast?_concat]
          simp only [Option.map_some']
          congr 1
          ring

/-- C3. The rendered weekly-report PDF: its pages hold the header block
followed by exactly one line per child of the report, in report order
(each child appears exactly once across all pages); no line is ever
drawn below the fixed bottom margin; and a page is finalized early only
when the cursor would fall below that margin. -/
theorem weekly_report_pdf_pagination (st : Store) (p : String) :
    pagesText (weekly_report_pdf st p)
      = (headerLines (weekly_report st p)).map Prod.snd
        ++ (weekly_report st p).children.map childLine
    ∧ (weekly_report_pdf st p).all
        (fun pg => pg.all lineInBounds) = true
    ∧ (weekly_report_pdf st p).dropLast.all brokeAtBottom = true := by
  have hheader : (headerLines (weekly_report st p)).all lineInBounds
      = true := by
    simp only [headerLines, List.all_cons, List.all_nil, Bool.and_true,
      lineInBounds, decide_eq_true_eq]
    norm_num [pageHeight, mmQ]
  have hlast0 : (headerLines (weekly_report st p)).getLast?
      = some (pageHeight - 50 * mmQ, "Children Summary") := rfl
  have hlast : (headerLines (weekly_report st p)).getLast?.map Prod.fst
      = some ((pageHeight - 50 * mmQ - 6 * mmQ) + 6 * mmQ) := by
    rw [hlast0, Option.map_some']
    congr 1
    ring
  refine ⟨?_, ?_, ?_⟩
  · have h := drawChildren_text (weekly_report st p).children
      (pageHeight - 50 * mmQ - 6 * mmQ) [] (headerLines (weekly_report st p))
    simp only [weekly_report_pdf, weekly_report_pdf_pages, pagesText_concat]
    simpa [pagesText] using h
  · have h := drawChildren_bounds (weekly_report st p).children
      (pageHeight - 50 * mmQ - 6 * mmQ) [] (headerLines (weekly_report st p))
      rfl hheader
    simp only [weekly_report_pdf, weekly_report_pdf_pages, List.all_append,
      List.all_cons, List.all_nil, Bool.and_true]
    simp [h.1, h.2]
  · have h := drawChildren_breaks (weekly_report st p).children
      (pageHeight - 50 * mmQ - 6 * mmQ) [] (headerLines (weekly_report st p))
      rfl hlast
    simp only [weekly_report_pdf, weekly_report_pdf_pages,
      List.dropLast_concat]
    exact h

end TherapyCenter
